import Mathlib

/-!
# ESP32 pendant: three-axis stepper follower (`main/main.c`)

Shallow embedding of `get_multiplier` and of the body of the `while (1)` loop of
`app_main`, followed by the properties of the control loop.

Machine integers are mathematical integers with explicit reduction:
`int16_t` values carry their range, `int` arithmetic is reduced modulo `2^32`
(`wrap_int`), the conversion to `uint32_t` is `% 2^32`, the conversion to
`int16_t` is reduction modulo `2^16` into `[-32768, 32767]`.
-/

namespace Pendant

/-! ## Machine integers -/

/-- Reduction of an integer modulo `2^16` into `[-32768, 32767]`: the value an
`int` has after conversion to `int16_t`. -/
def toInt16 (x : Int) : Int := (x + 32768) % 65536 - 32768

/-- Reduction of an integer modulo `2^32` into `[-2^31, 2^31 - 1]`: the value of
a 32-bit `int` expression whose exact result is `x`. -/
def wrap_int (x : Int) : Int := (x + 2147483648) % 4294967296 - 2147483648

/-- Conversion of an `int` to `uint32_t`: reduction modulo `2^32`. -/
def to_uint32 (x : Int) : Int := x % 4294967296

/-- Subtraction `a - b` of two `int` operands. -/
def int_sub (a b : Int) : Int := wrap_int (a - b)

/-- Unary minus `-a` of an `int` operand. -/
def int_neg (a : Int) : Int := wrap_int (-a)

/-- Product `a * b` of two `int` operands. -/
def int_mul (a b : Int) : Int := wrap_int (a * b)

/-- A value of C type `int16_t`. -/
structure int16_t where
  val : Int
  lo : -32768 ≤ val
  hi : val ≤ 32767

/-- Conversion of an `int` value to `int16_t` (assignment to an `int16_t` variable):
implementation-defined in C, reduction modulo `2^16` for the compiler of this target. -/
def int16_t.ofInt (x : Int) : int16_t :=
  ⟨toInt16 x, by unfold toInt16; omega, by unfold toInt16; omega⟩

/-! ## Pins and channels (`#define`s of `main.c`) -/

/-- The macro `DIR_PIN_1` is `GPIO_NUM_19`. -/
def DIR_PIN_1 : Nat := 19
/-- The macro `DIR_PIN_2` is `GPIO_NUM_22`. -/
def DIR_PIN_2 : Nat := 22
/-- The macro `DIR_PIN_3` is `GPIO_NUM_25`. -/
def DIR_PIN_3 : Nat := 25

/-- The driver's enumeration constant `LEDC_CHANNEL_0` (not a macro of `main.c`). -/
def LEDC_CHANNEL_0 : Nat := 0
/-- Source: `#define LEDC_CHANNEL_1 LEDC_CHANNEL_0`. -/
def LEDC_CHANNEL_1 : Nat := LEDC_CHANNEL_0
/-- Source: `#define LEDC_CHANNEL_2 LEDC_CHANNEL_1`; the replacement is rescanned, and
`LEDC_CHANNEL_1` is itself a macro of `main.c`. -/
def LEDC_CHANNEL_2 : Nat := LEDC_CHANNEL_1
/-- Source: `#define LEDC_CHANNEL_3 LEDC_CHANNEL_2`; the replacement is rescanned, and
`LEDC_CHANNEL_2` is itself a macro of `main.c`. -/
def LEDC_CHANNEL_3 : Nat := LEDC_CHANNEL_2

/-- The macro `LEDC_DUTY_RES` is `LEDC_TIMER_10_BIT`: ten bits of duty resolution. -/
def LEDC_DUTY_RES : Nat := 10

/-! ## `get_multiplier` -/

/-- The function `get_multiplier` of `main.c`; `level_1`, `level_2`, `level_3` are the
values `gpio_get_level` returns for `MULTIPLIER_PIN_1`, `MULTIPLIER_PIN_2`,
`MULTIPLIER_PIN_3`. -/
def get_multiplier (level_1 level_2 level_3 : Int) : Int :=
  let multiplier : Int := 10
  if level_1 = 1 then
    10
  else if level_2 = 1 then
    100
  else if level_3 = 1 then
    1000
  else
    multiplier

/-! ## State, inputs and output operations of the loop -/

/-- The three axes, in the order in which the loop body treats them. -/
inductive Axis where
  | axis_1
  | axis_2
  | axis_3
  deriving DecidableEq, Repr

/-- The variables `last_count_1`, `last_count_2`, `last_count_3` of `app_main`. -/
structure LastCounts where
  last_count_1 : int16_t
  last_count_2 : int16_t
  last_count_3 : int16_t

/-- What one iteration reads: the three counts `pcnt_unit_get_count` stores in
`count_1`, `count_2`, `count_3`, and the levels of the three multiplier pins. -/
structure Inputs where
  count_1 : int16_t
  count_2 : int16_t
  count_3 : int16_t
  level_1 : Int
  level_2 : Int
  level_3 : Int

/-- An output call of the loop body (`LEDC_MODE` is the same in every call). -/
inductive OutOp where
  | gpio_set_level (gpio_num : Nat) (level : Int)
  | ledc_set_duty (channel : Nat) (duty : Int)
  | ledc_update_duty (channel : Nat)

/-- State of the outputs: the level of each GPIO, and for each LEDC channel the
duty staged by `ledc_set_duty` and the duty in effect since the last
`ledc_update_duty`. -/
structure Outputs where
  gpio_level : Nat → Int
  ledc_staged : Nat → Int
  ledc_duty : Nat → Int

/-- Modelled from the spec: the driver functions `gpio_set_level`, `ledc_set_duty` and
`ledc_update_duty` are not part of `main.c`; section 6 describes them as `setLevel` and
as the two-phase set-then-apply `setDuty` / `commit`. `gpio_set_level` drives a pin,
`ledc_set_duty` stages a duty, `ledc_update_duty` puts the staged duty in effect. -/
def OutOp.apply (o : Outputs) : OutOp → Outputs
  | OutOp.gpio_set_level gpio_num level =>
      { o with gpio_level := fun p => if p = gpio_num then level else o.gpio_level p }
  | OutOp.ledc_set_duty channel duty =>
      { o with ledc_staged := fun c => if c = channel then duty else o.ledc_staged c }
  | OutOp.ledc_update_duty channel =>
      { o with ledc_duty := fun c => if c = channel then o.ledc_staged c else o.ledc_duty c }

/-- Effect of a sequence of output calls, in order. -/
def run_ops (o : Outputs) (ops : List OutOp) : Outputs :=
  ops.foldl OutOp.apply o

/-! ## The loop body, block by block -/

/-- The variables `speed_1`, `speed_2`, `speed_3`. -/
structure Speeds where
  speed_1 : int16_t
  speed_2 : int16_t
  speed_3 : int16_t

/-- Block "Calculate the speeds based on the change in encoder counts": the operands
are promoted to `int`, subtracted, and the difference is converted to `int16_t`;
then the counts are stored in `last_count_1..3`. -/
def calculate_speeds (last : LastCounts) (inp : Inputs) : Speeds × LastCounts :=
  let speed_1 := int16_t.ofInt (int_sub inp.count_1.val last.last_count_1.val)
  let speed_2 := int16_t.ofInt (int_sub inp.count_2.val last.last_count_2.val)
  let speed_3 := int16_t.ofInt (int_sub inp.count_3.val last.last_count_3.val)
  let last_count_1 := inp.count_1
  let last_count_2 := inp.count_2
  let last_count_3 := inp.count_3
  (⟨speed_1, speed_2, speed_3⟩, ⟨last_count_1, last_count_2, last_count_3⟩)

/-- Result of the block "Set direction based on the sign of the speeds": the level
written to each `DIR_PIN_i` and the value of each `speed_i` after the block. -/
structure Directions where
  level_1 : Int
  level_2 : Int
  level_3 : Int
  speed_1 : int16_t
  speed_2 : int16_t
  speed_3 : int16_t

/-- Block "Set direction based on the sign of the speeds": for `speed_i > 0` the pin
is set to 1 and `speed_i` is kept; otherwise the pin is set to 0 and `speed_i` becomes
`-speed_i`, computed in `int` and converted back to `int16_t`. -/
def set_direction (sp : Speeds) : Directions :=
  let level_1 : Int := if sp.speed_1.val > 0 then 1 else 0
  let speed_1 := if sp.speed_1.val > 0 then sp.speed_1
    else int16_t.ofInt (int_neg sp.speed_1.val)
  let level_2 : Int := if sp.speed_2.val > 0 then 1 else 0
  let speed_2 := if sp.speed_2.val > 0 then sp.speed_2
    else int16_t.ofInt (int_neg sp.speed_2.val)
  let level_3 : Int := if sp.speed_3.val > 0 then 1 else 0
  let speed_3 := if sp.speed_3.val > 0 then sp.speed_3
    else int16_t.ofInt (int_neg sp.speed_3.val)
  ⟨level_1, level_2, level_3, speed_1, speed_2, speed_3⟩

/-- The variables `duty_1`, `duty_2`, `duty_3` (type `uint32_t`). -/
structure Duties where
  duty_1 : Int
  duty_2 : Int
  duty_3 : Int

/-- Block "Set PWM duty cycles based on the speeds and multiplier", up to the three
limit checks: the product is computed in `int`, converted to `uint32_t`, and a value
above 1023 is replaced by 1023. -/
def set_pwm_duty (speed_1 speed_2 speed_3 : int16_t) (multiplier : Int) : Duties :=
  let duty_1 := to_uint32 (int_mul speed_1.val multiplier)
  let duty_2 := to_uint32 (int_mul speed_2.val multiplier)
  let duty_3 := to_uint32 (int_mul speed_3.val multiplier)
  let duty_1 := if duty_1 > 1023 then 1023 else duty_1
  let duty_2 := if duty_2 > 1023 then 1023 else duty_2
  let duty_3 := if duty_3 > 1023 then 1023 else duty_3
  ⟨duty_1, duty_2, duty_3⟩

/-- Everything one iteration of the loop computes and emits. -/
structure Iteration where
  /-- The values of `speed_1..3` right after their initialisation. -/
  velocity : Speeds
  /-- The values of `last_count_1..3` after the iteration. -/
  last : LastCounts
  /-- The value of `multiplier`. -/
  multiplier : Int
  /-- The levels written to the direction pins and `speed_1..3` after that block. -/
  dir : Directions
  /-- The values of `duty_1..3` passed to `ledc_set_duty`. -/
  duty : Duties
  /-- The output calls, in program order. -/
  ops : List OutOp

/-- The body of the `while (1)` loop of `app_main`, up to the delay. -/
def loop_body (last : LastCounts) (inp : Inputs) : Iteration :=
  let sl := calculate_speeds last inp
  let multiplier := get_multiplier inp.level_1 inp.level_2 inp.level_3
  let dir := set_direction sl.1
  let duty := set_pwm_duty dir.speed_1 dir.speed_2 dir.speed_3 multiplier
  { velocity := sl.1
    last := sl.2
    multiplier := multiplier
    dir := dir
    duty := duty
    ops := [ OutOp.gpio_set_level DIR_PIN_1 dir.level_1,
             OutOp.gpio_set_level DIR_PIN_2 dir.level_2,
             OutOp.gpio_set_level DIR_PIN_3 dir.level_3,
             OutOp.ledc_set_duty LEDC_CHANNEL_1 duty.duty_1,
             OutOp.ledc_update_duty LEDC_CHANNEL_1,
             OutOp.ledc_set_duty LEDC_CHANNEL_2 duty.duty_2,
             OutOp.ledc_update_duty LEDC_CHANNEL_2,
             OutOp.ledc_set_duty LEDC_CHANNEL_3 duty.duty_3,
             OutOp.ledc_update_duty LEDC_CHANNEL_3 ] }

/-- The whole state the loop acts on: its variables and the outputs. -/
structure Machine where
  last : LastCounts
  out : Outputs

/-- One iteration of the loop as a state transformer. -/
def loop_step (σ : Machine) (inp : Inputs) : Machine :=
  let it := loop_body σ.last inp
  { last := it.last, out := run_ops σ.out it.ops }

/-- State when the loop is entered: `last_count_1..3 = 0`; the three
`ledc_channel_config` calls have configured their channel, which is channel 0 each
time, with `.duty = 512`; the direction pins have not been written (level 0). -/
def initial_machine : Machine :=
  { last := ⟨int16_t.ofInt 0, int16_t.ofInt 0, int16_t.ofInt 0⟩
    out := { gpio_level := fun _ => 0
             ledc_staged := fun c => if c = LEDC_CHANNEL_0 then 512 else 0
             ledc_duty := fun c => if c = LEDC_CHANNEL_0 then 512 else 0 } }

/-- States the loop can be in at the start of an iteration. -/
inductive Reachable : Machine → Prop where
  | init : Reachable initial_machine
  | step (σ : Machine) (inp : Inputs) : Reachable σ → Reachable (loop_step σ inp)

/-! ## Per-axis views -/

/-- The stored previous count of an axis. -/
def LastCounts.get (l : LastCounts) : Axis → int16_t
  | Axis.axis_1 => l.last_count_1
  | Axis.axis_2 => l.last_count_2
  | Axis.axis_3 => l.last_count_3

/-- The count sampled for an axis. -/
def Inputs.count (inp : Inputs) : Axis → int16_t
  | Axis.axis_1 => inp.count_1
  | Axis.axis_2 => inp.count_2
  | Axis.axis_3 => inp.count_3

/-- The speed variable of an axis. -/
def Speeds.get (sp : Speeds) : Axis → int16_t
  | Axis.axis_1 => sp.speed_1
  | Axis.axis_2 => sp.speed_2
  | Axis.axis_3 => sp.speed_3

/-- The level written to the direction pin of an axis. -/
def Directions.level (d : Directions) : Axis → Int
  | Axis.axis_1 => d.level_1
  | Axis.axis_2 => d.level_2
  | Axis.axis_3 => d.level_3

/-- The speed variable of an axis after the direction block. -/
def Directions.speed (d : Directions) : Axis → int16_t
  | Axis.axis_1 => d.speed_1
  | Axis.axis_2 => d.speed_2
  | Axis.axis_3 => d.speed_3

/-- The duty passed to `ledc_set_duty` for an axis. -/
def Duties.get (d : Duties) : Axis → Int
  | Axis.axis_1 => d.duty_1
  | Axis.axis_2 => d.duty_2
  | Axis.axis_3 => d.duty_3

/-- The direction pin of an axis. -/
def DIR_PIN : Axis → Nat
  | Axis.axis_1 => DIR_PIN_1
  | Axis.axis_2 => DIR_PIN_2
  | Axis.axis_3 => DIR_PIN_3

/-- The channel named in the `ledc_set_duty` and `ledc_update_duty` calls of an axis. -/
def LEDC_CHANNEL : Axis → Nat
  | Axis.axis_1 => LEDC_CHANNEL_1
  | Axis.axis_2 => LEDC_CHANNEL_2
  | Axis.axis_3 => LEDC_CHANNEL_3

/-- Position (1 to 3) of an axis in the order of the loop body. -/
def Axis.index : Axis → Nat
  | Axis.axis_1 => 1
  | Axis.axis_2 => 2
  | Axis.axis_3 => 3

/-- The counter limits of `unit_config`: `low_limit = -10000`, `high_limit = 10000`. -/
def within_limits (c : int16_t) : Prop := -10000 ≤ c.val ∧ c.val ≤ 10000

instance (c : int16_t) : Decidable (within_limits c) := by
  unfold within_limits; exact inferInstance

/-- The exact difference `cur - prev` of two counts is representable in `int16_t`. -/
def difference_fits (prev cur : int16_t) : Prop :=
  -32768 ≤ cur.val - prev.val ∧ cur.val - prev.val ≤ 32767

instance (prev cur : int16_t) : Decidable (difference_fits prev cur) := by
  unfold difference_fits; exact inferInstance

/-! ## The Axis Controller of the specification (section 4.1) -/

/-- Direction of the specification's data model. -/
inductive Direction where
  | Forward
  | Reverse
  deriving DecidableEq, Repr

/-- Level of the direction line for a direction: Forward is 1, Reverse is 0. -/
def Direction.toLevel : Direction → Int
  | Direction.Forward => 1
  | Direction.Reverse => 0

/-- The bound `DUTY_MAX = 2^resolution_bits - 1` of the specification. -/
def DUTY_MAX : Int := 2 ^ LEDC_DUTY_RES - 1

/-- Result of the specification's `update`. -/
structure SpecUpdate where
  previous_count : Int
  direction : Direction
  duty : Int
  deriving DecidableEq, Repr

/-- The `update` of section 4.1, word for word, on mathematical integers:
velocity is the difference, the previous count becomes the current count, a positive
velocity is Forward with the velocity as magnitude and any other is Reverse with the
negated velocity, the duty is magnitude times multiplier, limited to `DUTY_MAX`. -/
def spec_update (previous_count current_count multiplier : Int) : SpecUpdate :=
  let velocity := current_count - previous_count
  let direction := if velocity > 0 then Direction.Forward else Direction.Reverse
  let magnitude := if velocity > 0 then velocity else -velocity
  let duty := magnitude * multiplier
  { previous_count := current_count
    direction := direction
    duty := min duty DUTY_MAX }

/-! ## Concrete samples -/

/-- Previous counts given by their values. -/
def counts_of (c1 c2 c3 : Int) : LastCounts :=
  ⟨int16_t.ofInt c1, int16_t.ofInt c2, int16_t.ofInt c3⟩

/-- Inputs given by the three counts and the three select levels. -/
def inputs_of (c1 c2 c3 : Int) (l1 l2 l3 : Int) : Inputs :=
  ⟨int16_t.ofInt c1, int16_t.ofInt c2, int16_t.ofInt c3, l1, l2, l3⟩

/-- The machine after one idle iteration from the initial state: all counts 0. -/
def idle_machine : Machine := loop_step initial_machine (inputs_of 0 0 0 1 0 0)

/-- The machine after one iteration from the initial state that samples the counts
`0`, `10`, `-5`: the previous counts of scenario 4. -/
def scenario_machine : Machine := loop_step initial_machine (inputs_of 0 10 (-5) 1 0 0)

/-! ## Intermediate output states of one iteration -/

/-- The outputs after the first `k` output calls of an iteration started with outputs `o`. -/
def outputs_after (o : Outputs) (it : Iteration) (k : Nat) : Outputs :=
  run_ops o (it.ops.take k)

/-- An intermediate output state in which, for axis `a`, the direction line already
carries this cycle's value while the pulse output still carries the previous cycle's
duty, in a cycle that changes both. -/
def direction_new_duty_old (o : Outputs) (it : Iteration) (a : Axis) (k : Nat) : Prop :=
  o.gpio_level (DIR_PIN a) ≠ it.dir.level a
    ∧ o.ledc_duty (LEDC_CHANNEL a) ≠ it.duty.get a
    ∧ (outputs_after o it k).gpio_level (DIR_PIN a) = it.dir.level a
    ∧ (outputs_after o it k).ledc_duty (LEDC_CHANNEL a) = o.ledc_duty (LEDC_CHANNEL a)

/-- Direction and duty are committed as a unit: no intermediate output state of the
iteration has the new direction together with the old duty. -/
def committed_as_unit (o : Outputs) (it : Iteration) : Prop :=
  ∀ (a : Axis) (k : Nat), k ≤ it.ops.length → ¬ direction_new_duty_old o it a k

/-! ## The duty range as a property of the outputs -/

/-- Both the staged and the effective duty of every channel are within the ten-bit range. -/
def duty_in_range (o : Outputs) : Prop :=
  ∀ c : Nat, (0 ≤ o.ledc_staged c ∧ o.ledc_staged c ≤ 1023)
    ∧ (0 ≤ o.ledc_duty c ∧ o.ledc_duty c ≤ 1023)

/-- An output call that stages a duty stages one within the ten-bit range. -/
def OutOp.in_range : OutOp → Prop
  | OutOp.ledc_set_duty _ duty => 0 ≤ duty ∧ duty ≤ 1023
  | _ => True

/-! ## Arithmetic of the machine integers -/

theorem ite_val (c : Prop) [Decidable c] (x y : int16_t) :
    (if c then x else y).val = if c then x.val else y.val := by
  split <;> rfl

theorem ofInt_val (x : Int) : (int16_t.ofInt x).val = toInt16 x := rfl

/-- The `int` difference of two `int16_t` values is exact. -/
theorem int_sub_exact (c p : int16_t) : int_sub c.val p.val = c.val - p.val := by
  have := c.lo; have := c.hi; have := p.lo; have := p.hi
  unfold int_sub wrap_int; omega

/-- The `int` negation of an `int16_t` value is exact. -/
theorem int_neg_exact (v : int16_t) : int_neg v.val = -v.val := by
  have := v.lo; have := v.hi
  unfold int_neg wrap_int; omega

/-- The value of `speed_i` after the direction block. -/
theorem speed_after_direction (v : int16_t) :
    (if v.val > 0 then v else int16_t.ofInt (int_neg v.val)).val
      = if v.val = -32768 then -32768 else (v.val.natAbs : Int) := by
  have := v.lo; have := v.hi
  rw [ite_val, ofInt_val, int_neg_exact]
  unfold toInt16; omega

/-- The `int` product of a 16-bit value and a multiplier of the three tiers is exact. -/
theorem int_mul_exact (x m : Int) (hlo : -32768 ≤ x) (hhi : x ≤ 32767)
    (hm : m = 10 ∨ m = 100 ∨ m = 1000) : int_mul x m = x * m := by
  unfold int_mul wrap_int
  rcases hm with rfl | rfl | rfl <;> omega

/-- Conversion to `uint32_t` of a value in `[-2^32, 2^32)`. -/
theorem to_uint32_eq (y : Int) (hlo : -4294967296 ≤ y) (hhi : y < 4294967296) :
    to_uint32 y = if 0 ≤ y then y else y + 4294967296 := by
  unfold to_uint32
  split
  · exact Int.emod_eq_of_lt (by omega) hhi
  · rw [← Int.add_emod_self]
    exact Int.emod_eq_of_lt (by omega) (by omega)

/-- The limited duty for a speed value `x` left by the direction block. -/
theorem limited_duty (x m : Int) (hlo : -32768 ≤ x) (hhi : x ≤ 32767)
    (hm : m = 10 ∨ m = 100 ∨ m = 1000) :
    (if to_uint32 (int_mul x m) > 1023 then 1023 else to_uint32 (int_mul x m))
      = if 0 ≤ x then min (x * m) 1023 else 1023 := by
  rw [int_mul_exact x m hlo hhi hm,
    to_uint32_eq (x * m) (by rcases hm with rfl | rfl | rfl <;> omega)
      (by rcases hm with rfl | rfl | rfl <;> omega)]
  rcases hm with rfl | rfl | rfl <;> omega

/-- The multiplier is one of the three tiers. -/
theorem get_multiplier_tier (l1 l2 l3 : Int) :
    get_multiplier l1 l2 l3 = 10 ∨ get_multiplier l1 l2 l3 = 100
      ∨ get_multiplier l1 l2 l3 = 1000 := by
  unfold get_multiplier
  split_ifs <;> simp

/-- The duty computed from a velocity: direction block, product, conversion, limit. -/
theorem duty_of_velocity (v : int16_t) (m : Int) (hm : m = 10 ∨ m = 100 ∨ m = 1000) :
    (if to_uint32 (int_mul (if v.val > 0 then v else int16_t.ofInt (int_neg v.val)).val m) > 1023
      then 1023
      else to_uint32 (int_mul (if v.val > 0 then v else int16_t.ofInt (int_neg v.val)).val m))
      = min (|v.val| * m) 1023 := by
  have h1 := v.lo
  have h2 := v.hi
  rw [Int.abs_eq_natAbs, speed_after_direction,
    limited_duty _ m (by split <;> omega) (by split <;> omega) hm]
  rcases hm with rfl | rfl | rfl <;> omega

/-- The velocity stored for an axis is the 16-bit reduction of the exact difference. -/
theorem velocity_val (last : LastCounts) (inp : Inputs) (a : Axis) :
    ((loop_body last inp).velocity.get a).val
      = toInt16 ((inp.count a).val - (last.get a).val) := by
  cases a <;>
    simp only [loop_body, calculate_speeds, Speeds.get, Inputs.count, LastCounts.get,
      ofInt_val, int_sub_exact]

/-- The level written to the direction pin of an axis, from the stored velocity. -/
theorem level_of_velocity (last : LastCounts) (inp : Inputs) (a : Axis) :
    (loop_body last inp).dir.level a
      = if ((loop_body last inp).velocity.get a).val > 0 then 1 else 0 := by
  cases a <;> rfl

/-- The duty passed for an axis, from the stored velocity and the sampled multiplier. -/
theorem duty_of_loop_body (last : LastCounts) (inp : Inputs) (a : Axis) :
    (loop_body last inp).duty.get a
      = min (|((loop_body last inp).velocity.get a).val| * (loop_body last inp).multiplier)
          1023 := by
  cases a <;>
    exact duty_of_velocity _ _ (get_multiplier_tier _ _ _)

/-- The outputs after the calls of one iteration: each direction pin carries the level
written for its axis. -/
theorem run_ops_gpio_level (o : Outputs) (last : LastCounts) (inp : Inputs) (a : Axis) :
    (run_ops o (loop_body last inp).ops).gpio_level (DIR_PIN a)
      = (loop_body last inp).dir.level a := by
  cases a <;>
    simp [run_ops, loop_body, OutOp.apply, DIR_PIN, DIR_PIN_1, DIR_PIN_2, DIR_PIN_3,
      Directions.level]

/-- The `ledc_set_duty` call of an axis is among the output calls of the iteration. -/
theorem set_duty_mem_ops (last : LastCounts) (inp : Inputs) (a : Axis) :
    OutOp.ledc_set_duty (LEDC_CHANNEL a) ((loop_body last inp).duty.get a)
      ∈ (loop_body last inp).ops := by
  cases a <;> simp [loop_body, LEDC_CHANNEL, Duties.get]

/-- The stored previous count of an axis after an iteration is the sampled count. -/
theorem last_after (last : LastCounts) (inp : Inputs) (a : Axis) :
    (loop_body last inp).last.get a = inp.count a := by
  cases a <;> rfl

/-- The duty passed for an axis is within the ten-bit range. -/
theorem duty_bounds (last : LastCounts) (inp : Inputs) (a : Axis) :
    0 ≤ (loop_body last inp).duty.get a ∧ (loop_body last inp).duty.get a ≤ 1023 := by
  rw [duty_of_loop_body]
  have hm : (0 : Int) ≤ (loop_body last inp).multiplier := by
    have h := get_multiplier_tier inp.level_1 inp.level_2 inp.level_3
    show 0 ≤ get_multiplier inp.level_1 inp.level_2 inp.level_3
    omega
  exact ⟨le_min (mul_nonneg (abs_nonneg _) hm) (by norm_num), min_le_right _ _⟩

theorem duty_in_range_apply (o : Outputs) (op : OutOp) (h : duty_in_range o)
    (hop : op.in_range) : duty_in_range (OutOp.apply o op) := by
  intro c
  cases op with
  | gpio_set_level p l => exact h c
  | ledc_set_duty ch d =>
      refine ⟨?_, (h c).2⟩
      show 0 ≤ (if c = ch then d else o.ledc_staged c)
        ∧ (if c = ch then d else o.ledc_staged c) ≤ 1023
      split
      · exact hop
      · exact (h c).1
  | ledc_update_duty ch =>
      refine ⟨(h c).1, ?_⟩
      show 0 ≤ (if c = ch then o.ledc_staged c else o.ledc_duty c)
        ∧ (if c = ch then o.ledc_staged c else o.ledc_duty c) ≤ 1023
      split
      · exact (h c).1
      · exact (h c).2

theorem duty_in_range_run_ops (ops : List OutOp) (o : Outputs) (h : duty_in_range o)
    (hops : ∀ op ∈ ops, op.in_range) : duty_in_range (run_ops o ops) := by
  induction ops generalizing o with
  | nil => exact h
  | cons op rest ih =>
      exact ih (OutOp.apply o op)
        (duty_in_range_apply o op h (hops op (List.mem_cons_self _ _)))
        (fun op' hmem => hops op' (List.mem_cons_of_mem _ hmem))

theorem loop_body_ops_in_range (last : LastCounts) (inp : Inputs) :
    ∀ op ∈ (loop_body last inp).ops, op.in_range := by
  intro op hop
  have h1 := duty_bounds last inp Axis.axis_1
  have h2 := duty_bounds last inp Axis.axis_2
  have h3 := duty_bounds last inp Axis.axis_3
  simp only [loop_body, List.mem_cons, List.mem_singleton, List.not_mem_nil, or_false] at hop
  rcases hop with rfl | rfl | rfl | rfl | rfl | rfl | rfl | rfl | rfl
  all_goals first | exact h1 | exact h2 | exact h3 | trivial

theorem reachable_duty_in_range (σ : Machine) (h : Reachable σ) : duty_in_range σ.out := by
  induction h with
  | init =>
      intro c
      simp only [initial_machine]
      split <;> norm_num
  | step σ inp _ ih =>
      exact duty_in_range_run_ops _ _ ih (loop_body_ops_in_range σ.last inp)

/-- Counts within the counter limits have a difference representable in `int16_t`. -/
theorem within_limits_difference_fits (prev cur : int16_t) (hprev : within_limits prev)
    (hcur : within_limits cur) : difference_fits prev cur := by
  unfold within_limits at hprev hcur
  unfold difference_fits
  omega

/-- The three channel macros of `main.c` all denote the driver's channel 0. -/
theorem ledc_channels_coincide :
    LEDC_CHANNEL_1 = LEDC_CHANNEL_0 ∧ LEDC_CHANNEL_2 = LEDC_CHANNEL_0
      ∧ LEDC_CHANNEL_3 = LEDC_CHANNEL_0 :=
  ⟨rfl, rfl, rfl⟩

/-- After the output calls of one iteration, the channel named for any axis carries the
duty passed last, the one of axis 3. -/
theorem run_ops_ledc_duty (o : Outputs) (last : LastCounts) (inp : Inputs) (a : Axis) :
    (run_ops o (loop_body last inp).ops).ledc_duty (LEDC_CHANNEL a)
      = (loop_body last inp).duty.duty_3 := by
  cases a <;>
    simp [run_ops, loop_body, OutOp.apply, LEDC_CHANNEL, LEDC_CHANNEL_1, LEDC_CHANNEL_2,
      LEDC_CHANNEL_3]

/-- Every 16-bit velocity and every multiplier tier occur together in some iteration. -/
theorem velocity_and_tier_occur (v : int16_t) (m : Int) (hm : m = 10 ∨ m = 100 ∨ m = 1000)
    (a : Axis) :
    ∃ (last : LastCounts) (inp : Inputs),
      ((loop_body last inp).velocity.get a).val = v.val
        ∧ (loop_body last inp).multiplier = m := by
  have h1 := v.lo
  have h2 := v.hi
  have hz : (int16_t.ofInt 0).val = 0 := by decide
  have hv : ∀ l1 l2 l3 : Int,
      ((loop_body (counts_of 0 0 0) ⟨v, v, v, l1, l2, l3⟩).velocity.get a).val = v.val := by
    intro l1 l2 l3
    rw [velocity_val]
    cases a <;> simp only [Inputs.count, LastCounts.get, counts_of, hz] <;>
      unfold toInt16 <;> omega
  rcases hm with rfl | rfl | rfl
  · exact ⟨counts_of 0 0 0, ⟨v, v, v, 1, 0, 0⟩, hv 1 0 0, rfl⟩
  · exact ⟨counts_of 0 0 0, ⟨v, v, v, 0, 1, 0⟩, hv 0 1 0, rfl⟩
  · exact ⟨counts_of 0 0 0, ⟨v, v, v, 0, 0, 1⟩, hv 0 0 1, rfl⟩

/-! ## Properties of the control loop -/

/-- C1: for every 16-bit velocity `v` an axis holds (also `-32768`) and every
multiplier `m` of the three tiers sampled in the iteration, the duty passed to
`ledc_set_duty` for that axis is `min (|v| * m) 1023`. -/
theorem duty_eq_min_abs_velocity (v m : Int) (hm : m = 10 ∨ m = 100 ∨ m = 1000)
    (last : LastCounts) (inp : Inputs) (a : Axis)
    (hv : ((loop_body last inp).velocity.get a).val = v)
    (hsel : (loop_body last inp).multiplier = m) :
    (loop_body last inp).duty.get a = min (|v| * m) 1023
      ∧ OutOp.ledc_set_duty (LEDC_CHANNEL a) (min (|v| * m) 1023)
          ∈ (loop_body last inp).ops := by
  have h : (loop_body last inp).duty.get a = min (|v| * m) 1023 := by
    have hm2 : (loop_body last inp).multiplier = 10 ∨ (loop_body last inp).multiplier = 100
        ∨ (loop_body last inp).multiplier = 1000 := by
      rw [hsel]; exact hm
    rw [← hv, ← hsel]
    cases a <;> exact duty_of_velocity _ _ hm2
  exact ⟨h, h ▸ set_duty_mem_ops last inp a⟩

/-- Instance of C1 at velocity `-32768` with multiplier 1000: the duty passed is 1023. -/
theorem duty_eq_min_abs_velocity_witness :
    (loop_body (counts_of 0 0 0) (inputs_of (-32768) 0 0 0 0 1)).duty.get Axis.axis_1
        = min (|(-32768 : Int)| * 1000) 1023
      ∧ OutOp.ledc_set_duty (LEDC_CHANNEL Axis.axis_1) (min (|(-32768 : Int)| * 1000) 1023)
          ∈ (loop_body (counts_of 0 0 0) (inputs_of (-32768) 0 0 0 0 1)).ops :=
  duty_eq_min_abs_velocity (-32768) 1000 (by decide) (counts_of 0 0 0)
    (inputs_of (-32768) 0 0 0 0 1) Axis.axis_1 (by decide) (by decide)

/-- C2: for every axis and every previous and current count within the counter limits
`-10000..10000`, the stored velocity is exactly `cur - prev`, and the direction pin is
written, and left, at level 1 exactly when the velocity is positive and at level 0 for
every velocity `≤ 0`. -/
theorem velocity_and_direction (o : Outputs) (last : LastCounts) (inp : Inputs) (a : Axis)
    (hprev : within_limits (last.get a)) (hcur : within_limits (inp.count a)) :
    ((loop_body last inp).velocity.get a).val = (inp.count a).val - (last.get a).val
      ∧ ((loop_body last inp).dir.level a = 1 ↔ (inp.count a).val - (last.get a).val > 0)
      ∧ ((inp.count a).val - (last.get a).val ≤ 0 → (loop_body last inp).dir.level a = 0)
      ∧ (run_ops o (loop_body last inp).ops).gpio_level (DIR_PIN a)
          = (loop_body last inp).dir.level a := by
  have hv : ((loop_body last inp).velocity.get a).val
      = (inp.count a).val - (last.get a).val := by
    rw [velocity_val]
    unfold within_limits at hprev hcur
    unfold toInt16
    omega
  refine ⟨hv, ?_, ?_, run_ops_gpio_level o last inp a⟩
  · rw [level_of_velocity, hv]
    split <;> simp_all
  · intro h
    rw [level_of_velocity, hv]
    split
    · omega
    · rfl

/-- Instance of C2, scenario 1: previous count 0, current count 5. -/
theorem velocity_and_direction_witness :
    ((loop_body (counts_of 0 0 0) (inputs_of 5 0 0 1 0 0)).velocity.get Axis.axis_1).val
        = 5 - 0
      ∧ (loop_body (counts_of 0 0 0) (inputs_of 5 0 0 1 0 0)).dir.level Axis.axis_1 = 1 := by
  have h := velocity_and_direction initial_machine.out (counts_of 0 0 0)
    (inputs_of 5 0 0 1 0 0) Axis.axis_1 (by decide) (by decide)
  exact ⟨h.1, h.2.1.mpr (by decide)⟩

/-- C3: `get_multiplier` returns 10 when input 1 is at level 1, whatever inputs 2 and 3
are; 100 when input 1 is not and input 2 is, whatever input 3 is; 1000 when only
input 3 is; and 10 when none is. With all three asserted the result is 10. -/
theorem get_multiplier_priority (level_1 level_2 level_3 : Int) :
    (level_1 = 1 → get_multiplier level_1 level_2 level_3 = 10)
      ∧ (level_1 ≠ 1 → level_2 = 1 → get_multiplier level_1 level_2 level_3 = 100)
      ∧ (level_1 ≠ 1 → level_2 ≠ 1 → level_3 = 1
          → get_multiplier level_1 level_2 level_3 = 1000)
      ∧ (level_1 ≠ 1 → level_2 ≠ 1 → level_3 ≠ 1
          → get_multiplier level_1 level_2 level_3 = 10)
      ∧ get_multiplier 1 1 1 = 10 := by
  unfold get_multiplier
  refine ⟨?_, ?_, ?_, ?_, rfl⟩
  · intro h1; simp [h1]
  · intro h1 h2; simp [h1, h2]
  · intro h1 h2 h3; simp [h1, h2, h3]
  · intro h1 h2 h3; simp [h1, h2, h3]

/-- Instances of C3, one for each of its four cases. -/
theorem get_multiplier_priority_witness :
    get_multiplier 1 0 1 = 10 ∧ get_multiplier 0 1 1 = 100 ∧ get_multiplier 0 0 1 = 1000
      ∧ get_multiplier 0 0 0 = 10 :=
  ⟨(get_multiplier_priority 1 0 1).1 rfl,
   (get_multiplier_priority 0 1 1).2.1 (by decide) rfl,
   (get_multiplier_priority 0 0 1).2.2.1 (by decide) (by decide) rfl,
   (get_multiplier_priority 0 0 0).2.2.2.1 (by decide) (by decide) (by decide)⟩

/-- C4: when two iterations in a row sample the same count for an axis, then in the
second one, whatever the previous count before the first and whatever the select levels
(so whatever the two multipliers) were, the velocity is 0, the direction pin is written
at level 0 (Reverse) and the duty passed is 0. -/
theorem same_count_twice (σ : Machine) (inp1 inp2 : Inputs) (a : Axis)
    (hsame : inp2.count a = inp1.count a) :
    ((loop_body (loop_step σ inp1).last inp2).velocity.get a).val = 0
      ∧ (loop_body (loop_step σ inp1).last inp2).dir.level a = Direction.Reverse.toLevel
      ∧ (loop_body (loop_step σ inp1).last inp2).duty.get a = 0
      ∧ (loop_step (loop_step σ inp1) inp2).out.gpio_level (DIR_PIN a) = 0 := by
  have hlast : (loop_step σ inp1).last.get a = inp1.count a := last_after σ.last inp1 a
  have hv : ((loop_body (loop_step σ inp1).last inp2).velocity.get a).val = 0 := by
    rw [velocity_val, hlast, hsame]
    unfold toInt16
    omega
  have hl : (loop_body (loop_step σ inp1).last inp2).dir.level a = 0 := by
    rw [level_of_velocity, hv]; rfl
  refine ⟨hv, hl, ?_, ?_⟩
  · rw [duty_of_loop_body, hv]; simp
  · show (run_ops _ (loop_body (loop_step σ inp1).last inp2).ops).gpio_level (DIR_PIN a) = 0
    rw [run_ops_gpio_level, hl]

/-- Instance of C4, scenario 3: count 50 sampled twice, with different select levels. -/
theorem same_count_twice_witness :
    ((loop_body (loop_step initial_machine (inputs_of 50 0 0 0 0 1)).last
        (inputs_of 50 7 (-7) 0 1 0)).velocity.get Axis.axis_1).val = 0
      ∧ (loop_body (loop_step initial_machine (inputs_of 50 0 0 0 0 1)).last
          (inputs_of 50 7 (-7) 0 1 0)).dir.level Axis.axis_1 = Direction.Reverse.toLevel
      ∧ (loop_body (loop_step initial_machine (inputs_of 50 0 0 0 0 1)).last
          (inputs_of 50 7 (-7) 0 1 0)).duty.get Axis.axis_1 = 0
      ∧ (loop_step (loop_step initial_machine (inputs_of 50 0 0 0 0 1))
          (inputs_of 50 7 (-7) 0 1 0)).out.gpio_level (DIR_PIN Axis.axis_1) = 0 :=
  same_count_twice initial_machine (inputs_of 50 0 0 0 0 1) (inputs_of 50 7 (-7) 0 1 0)
    Axis.axis_1 rfl

/-- C5: for every pair of 16-bit previous and current counts, every axis and every state
of the select inputs, the duty passed to `ledc_set_duty` is between 0 and
`1023 = 2^10 - 1`; and in every state reachable by iterating the loop body, the staged
and the effective duty of every channel are between 0 and 1023. -/
theorem duty_always_within_resolution (last : LastCounts) (inp : Inputs) (a : Axis)
    (σ : Machine) (hσ : Reachable σ) (c : Nat) :
    (0 ≤ (loop_body last inp).duty.get a ∧ (loop_body last inp).duty.get a ≤ DUTY_MAX)
      ∧ (0 ≤ σ.out.ledc_staged c ∧ σ.out.ledc_staged c ≤ DUTY_MAX)
      ∧ (0 ≤ σ.out.ledc_duty c ∧ σ.out.ledc_duty c ≤ DUTY_MAX)
      ∧ DUTY_MAX = 1023 := by
  have hd : DUTY_MAX = 1023 := by decide
  rw [hd]
  exact ⟨duty_bounds last inp a, (reachable_duty_in_range σ hσ c).1,
    (reachable_duty_in_range σ hσ c).2, rfl⟩

/-- Instance of C5 at the extreme counts `-32768` and `32767`, after one iteration. -/
theorem duty_always_within_resolution_witness :
    (0 ≤ (loop_body (counts_of (-32768) 0 0) (inputs_of 32767 0 0 0 0 1)).duty.get Axis.axis_1
        ∧ (loop_body (counts_of (-32768) 0 0) (inputs_of 32767 0 0 0 0 1)).duty.get Axis.axis_1
            ≤ DUTY_MAX)
      ∧ (0 ≤ (loop_step initial_machine (inputs_of 32767 0 0 0 0 1)).out.ledc_staged 0
        ∧ (loop_step initial_machine (inputs_of 32767 0 0 0 0 1)).out.ledc_staged 0 ≤ DUTY_MAX)
      ∧ (0 ≤ (loop_step initial_machine (inputs_of 32767 0 0 0 0 1)).out.ledc_duty 0
        ∧ (loop_step initial_machine (inputs_of 32767 0 0 0 0 1)).out.ledc_duty 0 ≤ DUTY_MAX)
      ∧ DUTY_MAX = 1023 :=
  duty_always_within_resolution (counts_of (-32768) 0 0) (inputs_of 32767 0 0 0 0 1)
    Axis.axis_1 (loop_step initial_machine (inputs_of 32767 0 0 0 0 1))
    (Reachable.step _ _ Reachable.init) 0

/-- C6: after every iteration the stored previous count of every axis is the count
sampled for that axis in the iteration, whatever the branch taken and whether or not
the duty was limited. -/
theorem previous_count_is_sample (σ : Machine) (inp : Inputs) (a : Axis) :
    (loop_step σ inp).last.get a = inp.count a
      ∧ (loop_body σ.last inp).last.get a = inp.count a := by
  constructor <;> cases a <;> rfl

/-- Refinement at the level of the computed values. Whenever the difference of an
axis's counts is representable in 16 bits, as it is for all counts within the counter
limits `-10000..10000`, the level written to the axis's direction pin, the duty passed
to its `ledc_set_duty` and its new previous count are those of `spec_update` on the
axis's own previous and current count with the multiplier sampled in the iteration. For
all 16-bit counts these three values, and the multiplier, are the same in any other
iteration that agrees on this axis's previous count, its current count and the select
levels. This says nothing of the channel the duty is sent to. -/
theorem loop_body_refines_spec_update (last : LastCounts) (inp : Inputs) (a : Axis) :
    ((within_limits (last.get a) → within_limits (inp.count a) →
        difference_fits (last.get a) (inp.count a))
      ∧ (difference_fits (last.get a) (inp.count a) →
        (loop_body last inp).dir.level a
            = (spec_update (last.get a).val (inp.count a).val
                (get_multiplier inp.level_1 inp.level_2 inp.level_3)).direction.toLevel
          ∧ (loop_body last inp).duty.get a
            = (spec_update (last.get a).val (inp.count a).val
                (get_multiplier inp.level_1 inp.level_2 inp.level_3)).duty
          ∧ ((loop_body last inp).last.get a).val
            = (spec_update (last.get a).val (inp.count a).val
                (get_multiplier inp.level_1 inp.level_2 inp.level_3)).previous_count
          ∧ OutOp.gpio_set_level (DIR_PIN a)
              (spec_update (last.get a).val (inp.count a).val
                (get_multiplier inp.level_1 inp.level_2 inp.level_3)).direction.toLevel
              ∈ (loop_body last inp).ops
          ∧ OutOp.ledc_set_duty (LEDC_CHANNEL a)
              (spec_update (last.get a).val (inp.count a).val
                (get_multiplier inp.level_1 inp.level_2 inp.level_3)).duty
              ∈ (loop_body last inp).ops))
      ∧ (∀ (last2 : LastCounts) (inp2 : Inputs),
          last2.get a = last.get a → inp2.count a = inp.count a →
          inp2.level_1 = inp.level_1 → inp2.level_2 = inp.level_2 →
          inp2.level_3 = inp.level_3 →
            (loop_body last2 inp2).multiplier = (loop_body last inp).multiplier
              ∧ (loop_body last2 inp2).dir.level a = (loop_body last inp).dir.level a
              ∧ (loop_body last2 inp2).duty.get a = (loop_body last inp).duty.get a
              ∧ (loop_body last2 inp2).last.get a = (loop_body last inp).last.get a) := by
  refine ⟨⟨within_limits_difference_fits _ _, ?_⟩, ?_⟩
  · intro hfit
    have hv : ((loop_body last inp).velocity.get a).val
        = (inp.count a).val - (last.get a).val := by
      rw [velocity_val]
      unfold difference_fits at hfit
      unfold toInt16
      omega
    have hl : (loop_body last inp).dir.level a
        = (spec_update (last.get a).val (inp.count a).val
            (get_multiplier inp.level_1 inp.level_2 inp.level_3)).direction.toLevel := by
      rw [level_of_velocity, hv]
      simp only [spec_update]
      split <;> rfl
    have hd : (loop_body last inp).duty.get a
        = (spec_update (last.get a).val (inp.count a).val
            (get_multiplier inp.level_1 inp.level_2 inp.level_3)).duty := by
      rw [duty_of_loop_body, hv]
      have hmax : DUTY_MAX = 1023 := by decide
      simp only [spec_update, hmax]
      have habs : (if (inp.count a).val - (last.get a).val > 0
          then (inp.count a).val - (last.get a).val
          else -((inp.count a).val - (last.get a).val))
            = |(inp.count a).val - (last.get a).val| := by
        rw [Int.abs_eq_natAbs]; omega
      rw [habs]
      rfl
    refine ⟨hl, hd, ?_, ?_, ?_⟩
    · rw [last_after]; rfl
    · rw [← hl]
      cases a <;> simp [loop_body, DIR_PIN, Directions.level]
    · rw [← hd]
      exact set_duty_mem_ops last inp a
  · intro last2 inp2 hlast hcount h1 h2 h3
    have hm : (loop_body last2 inp2).multiplier = (loop_body last inp).multiplier := by
      show get_multiplier inp2.level_1 inp2.level_2 inp2.level_3
        = get_multiplier inp.level_1 inp.level_2 inp.level_3
      rw [h1, h2, h3]
    have hv : ((loop_body last2 inp2).velocity.get a).val
        = ((loop_body last inp).velocity.get a).val := by
      rw [velocity_val, velocity_val, hlast, hcount]
    refine ⟨hm, ?_, ?_, ?_⟩
    · rw [level_of_velocity, level_of_velocity, hv]
    · rw [duty_of_loop_body, duty_of_loop_body, hv, hm]
    · rw [last_after, last_after, hcount]

/-- Scenario 4 at the level of the computed values: counts `0 → 3`, `10 → 10`,
`-5 → -20`, multiplier 10. -/
theorem loop_body_refines_spec_update_witness :
    ((loop_body (counts_of 0 10 (-5)) (inputs_of 3 10 (-20) 1 0 0)).dir.level Axis.axis_1
        = Direction.Forward.toLevel
      ∧ (loop_body (counts_of 0 10 (-5)) (inputs_of 3 10 (-20) 1 0 0)).duty.get Axis.axis_1
        = 30)
      ∧ ((loop_body (counts_of 0 10 (-5)) (inputs_of 3 10 (-20) 1 0 0)).dir.level Axis.axis_2
        = Direction.Reverse.toLevel
      ∧ (loop_body (counts_of 0 10 (-5)) (inputs_of 3 10 (-20) 1 0 0)).duty.get Axis.axis_2
        = 0)
      ∧ ((loop_body (counts_of 0 10 (-5)) (inputs_of 3 10 (-20) 1 0 0)).dir.level Axis.axis_3
        = Direction.Reverse.toLevel
      ∧ (loop_body (counts_of 0 10 (-5)) (inputs_of 3 10 (-20) 1 0 0)).duty.get Axis.axis_3
        = 150) := by
  have h1 := (loop_body_refines_spec_update (counts_of 0 10 (-5))
    (inputs_of 3 10 (-20) 1 0 0) Axis.axis_1).1.2
    ((loop_body_refines_spec_update (counts_of 0 10 (-5))
      (inputs_of 3 10 (-20) 1 0 0) Axis.axis_1).1.1 (by decide) (by decide))
  have h2 := (loop_body_refines_spec_update (counts_of 0 10 (-5))
    (inputs_of 3 10 (-20) 1 0 0) Axis.axis_2).1.2
    ((loop_body_refines_spec_update (counts_of 0 10 (-5))
      (inputs_of 3 10 (-20) 1 0 0) Axis.axis_2).1.1 (by decide) (by decide))
  have h3 := (loop_body_refines_spec_update (counts_of 0 10 (-5))
    (inputs_of 3 10 (-20) 1 0 0) Axis.axis_3).1.2
    ((loop_body_refines_spec_update (counts_of 0 10 (-5))
      (inputs_of 3 10 (-20) 1 0 0) Axis.axis_3).1.1 (by decide) (by decide))
  exact ⟨⟨h1.1.trans (by decide), h1.2.1.trans (by decide)⟩,
    ⟨h2.1.trans (by decide), h2.2.1.trans (by decide)⟩,
    ⟨h3.1.trans (by decide), h3.2.1.trans (by decide)⟩⟩

/-- C7 (code defect): the axes are not independent at the pulse output. In scenario 4,
from a reachable state with previous counts `0`, `10`, `-5`, the iteration that samples
`3`, `10`, `-20` with multiplier 10 computes for axis 1 the duty 30 of `spec_update`,
yet after the iteration the channel named for axis 1 carries 150, the duty of axis 3;
and when only the count of axis 3 changes, to `-12`, the duty computed for axis 1 is
still 30 while the channel named for axis 1 carries 70. The three channel names of
`main.c` denote one channel. -/
theorem pulse_output_of_axis_1_follows_axis_3 :
    Reachable scenario_machine
      ∧ LEDC_CHANNEL Axis.axis_1 = LEDC_CHANNEL Axis.axis_3
      ∧ (spec_update 0 3 10).duty = 30
      ∧ (loop_body scenario_machine.last (inputs_of 3 10 (-20) 1 0 0)).duty.get Axis.axis_1
          = 30
      ∧ (loop_step scenario_machine (inputs_of 3 10 (-20) 1 0 0)).out.ledc_duty
          (LEDC_CHANNEL Axis.axis_1) = 150
      ∧ (loop_body scenario_machine.last (inputs_of 3 10 (-12) 1 0 0)).duty.get Axis.axis_1
          = 30
      ∧ (loop_step scenario_machine (inputs_of 3 10 (-12) 1 0 0)).out.ledc_duty
          (LEDC_CHANNEL Axis.axis_1) = 70 :=
  ⟨Reachable.step _ _ Reachable.init, rfl, by decide, by decide, by decide, by decide,
    by decide⟩

/-- C8 (as stated, refuted): after an idle iteration from the initial state, an
iteration that samples count 5 on axis 1 with multiplier 10 has, after its first output
call, the direction pin of axis 1 at the new level 1 while the channel of axis 1 still
carries the previous duty 0 instead of 50. -/
theorem not_committed_as_unit :
    Reachable idle_machine
      ∧ ¬ committed_as_unit idle_machine.out
          (loop_body idle_machine.last (inputs_of 5 0 0 1 0 0)) := by
  refine ⟨Reachable.step _ _ Reachable.init, fun h => ?_⟩
  exact h Axis.axis_1 1 (by decide) ⟨by decide, by decide, by decide, by decide⟩

/-- C8 (amended): direction and duty are committed by separate output calls, direction
first. From output call `i` on, the direction pin of axis `i` carries this cycle's
level; during the first four output calls no channel changes its effective duty; right
after output call `3 + 2 * i`, the `ledc_update_duty` of axis `i`, the channel of axis
`i` carries this cycle's duty while its direction pin carries this cycle's level. -/
theorem direction_first_then_duty (o : Outputs) (last : LastCounts) (inp : Inputs)
    (a : Axis) (k : Nat) :
    (a.index ≤ k →
        (outputs_after o (loop_body last inp) k).gpio_level (DIR_PIN a)
          = (loop_body last inp).dir.level a)
      ∧ (k ≤ 4 →
        (outputs_after o (loop_body last inp) k).ledc_duty (LEDC_CHANNEL a)
          = o.ledc_duty (LEDC_CHANNEL a))
      ∧ (outputs_after o (loop_body last inp) (3 + 2 * a.index)).ledc_duty (LEDC_CHANNEL a)
          = (loop_body last inp).duty.get a
      ∧ (outputs_after o (loop_body last inp) (3 + 2 * a.index)).gpio_level (DIR_PIN a)
          = (loop_body last inp).dir.level a := by
  refine ⟨?_, ?_, ?_, ?_⟩
  · intro hk
    rcases k with _ | _ | _ | _ | _ | _ | _ | _ | _ | _ | k <;> cases a <;>
      simp [Axis.index] at hk <;>
      simp [outputs_after, run_ops, loop_body, OutOp.apply, DIR_PIN, DIR_PIN_1, DIR_PIN_2,
        DIR_PIN_3, Directions.level]
  · intro hk
    rcases k with _ | _ | _ | _ | _ | k
    · rfl
    · rfl
    · rfl
    · rfl
    · rfl
    · omega
  · cases a <;>
      simp [outputs_after, run_ops, loop_body, OutOp.apply, LEDC_CHANNEL, LEDC_CHANNEL_1,
        LEDC_CHANNEL_2, LEDC_CHANNEL_3, Duties.get, Axis.index]
  · cases a <;>
      simp [outputs_after, run_ops, loop_body, OutOp.apply, DIR_PIN, DIR_PIN_1, DIR_PIN_2,
        DIR_PIN_3, Directions.level, Axis.index]

/-- Instance of the amended C8: after the first output call the direction pin of axis 1 is
at the new level 1 and the channel still carries duty 0; after the fifth it carries 50. -/
theorem direction_first_then_duty_witness :
    (outputs_after idle_machine.out (loop_body idle_machine.last (inputs_of 5 0 0 1 0 0))
        1).gpio_level (DIR_PIN Axis.axis_1) = 1
      ∧ (outputs_after idle_machine.out (loop_body idle_machine.last (inputs_of 5 0 0 1 0 0))
        1).ledc_duty (LEDC_CHANNEL Axis.axis_1) = 0
      ∧ (outputs_after idle_machine.out (loop_body idle_machine.last (inputs_of 5 0 0 1 0 0))
        5).ledc_duty (LEDC_CHANNEL Axis.axis_1) = 50 := by
  have h1 := direction_first_then_duty idle_machine.out idle_machine.last
    (inputs_of 5 0 0 1 0 0) Axis.axis_1 1
  exact ⟨(h1.1 (by decide)).trans (by decide), (h1.2.1 (by decide)).trans (by decide),
    h1.2.2.1.trans (by decide)⟩

/-- C9: for every 16-bit speed value the direction block leaves for an axis (also
`-32768`, which the 16-bit negation leaves unchanged) and every multiplier `m` of the
three tiers, the 32-bit `int` product is the exact product, of magnitude at most
`32768000 < 2^31`; the limit check is applied to the conversion of that exact product. -/
theorem product_does_not_wrap (m : Int) (hm : m = 10 ∨ m = 100 ∨ m = 1000)
    (last : LastCounts) (inp : Inputs) (a : Axis)
    (hsel : (loop_body last inp).multiplier = m) :
    int_mul ((loop_body last inp).dir.speed a).val m
        = ((loop_body last inp).dir.speed a).val * m
      ∧ |((loop_body last inp).dir.speed a).val * m| ≤ 32768000
      ∧ (32768000 : Int) < 2 ^ 31
      ∧ (((loop_body last inp).velocity.get a).val = -32768 →
          ((loop_body last inp).dir.speed a).val = -32768)
      ∧ (loop_body last inp).duty.get a
          = (if to_uint32 (((loop_body last inp).dir.speed a).val * m) > 1023 then 1023
              else to_uint32 (((loop_body last inp).dir.speed a).val * m)) := by
  have hlo := ((loop_body last inp).dir.speed a).lo
  have hhi := ((loop_body last inp).dir.speed a).hi
  have hex := int_mul_exact _ m hlo hhi hm
  refine ⟨hex, ?_, by norm_num, ?_, ?_⟩
  · rw [abs_le]
    rcases hm with rfl | rfl | rfl <;> constructor <;> omega
  · intro hv
    have hs : ((loop_body last inp).dir.speed a).val
        = if ((loop_body last inp).velocity.get a).val = -32768 then -32768
          else ((((loop_body last inp).velocity.get a).val).natAbs : Int) := by
      cases a <;> exact speed_after_direction _
    rw [hs, if_pos hv]
  · rw [← hex, ← hsel]
    cases a <;> rfl

/-- Instance of C9 at speed `-32768` with multiplier 1000: the product is `-32768000`. -/
theorem product_does_not_wrap_witness :
    int_mul ((loop_body (counts_of 0 0 0) (inputs_of (-32768) 0 0 0 0 1)).dir.speed
        Axis.axis_1).val 1000 = -32768000
      ∧ ((loop_body (counts_of 0 0 0) (inputs_of (-32768) 0 0 0 0 1)).dir.speed
        Axis.axis_1).val = -32768 := by
  have h := product_does_not_wrap 1000 (by decide) (counts_of 0 0 0)
    (inputs_of (-32768) 0 0 0 0 1) Axis.axis_1 (by decide)
  exact ⟨h.1.trans (by decide), h.2.2.2.1 (by decide)⟩

/-- C10: for every pair of 16-bit counts, with no range restriction, the velocity stored
for an axis is the unique value in `[-32768, 32767]` congruent to `cur - prev` modulo
`65536`; it is the exact difference exactly when the difference is in that range; and
the level written and the duty passed are computed from this stored value. -/
theorem velocity_is_wrapped_difference (last : LastCounts) (inp : Inputs) (a : Axis) :
    (-32768 ≤ ((loop_body last inp).velocity.get a).val
        ∧ ((loop_body last inp).velocity.get a).val ≤ 32767)
      ∧ ((loop_body last inp).velocity.get a).val
          ≡ (inp.count a).val - (last.get a).val [ZMOD 65536]
      ∧ (∀ w : Int, -32768 ≤ w → w ≤ 32767 →
          w ≡ (inp.count a).val - (last.get a).val [ZMOD 65536] →
          w = ((loop_body last inp).velocity.get a).val)
      ∧ (((loop_body last inp).velocity.get a).val = (inp.count a).val - (last.get a).val
          ↔ (-32768 ≤ (inp.count a).val - (last.get a).val
              ∧ (inp.count a).val - (last.get a).val ≤ 32767))
      ∧ (loop_body last inp).dir.level a
          = (if ((loop_body last inp).velocity.get a).val > 0 then 1 else 0)
      ∧ (loop_body last inp).duty.get a
          = min (|((loop_body last inp).velocity.get a).val| * (loop_body last inp).multiplier)
              1023 := by
  refine ⟨⟨((loop_body last inp).velocity.get a).lo, ((loop_body last inp).velocity.get a).hi⟩,
    ?_, ?_, ?_, level_of_velocity last inp a, duty_of_loop_body last inp a⟩
  · rw [velocity_val]
    unfold Int.ModEq toInt16
    omega
  · intro w h1 h2 h3
    rw [velocity_val]
    unfold Int.ModEq at h3
    unfold toInt16
    omega
  · rw [velocity_val]
    unfold toInt16
    omega

/-- Instance of C10 outside the counter limits: previous count `-1`, current count `32767`. -/
theorem velocity_is_wrapped_difference_witness :
    ((loop_body (counts_of (-1) 0 0) (inputs_of 32767 0 0 1 0 0)).velocity.get
        Axis.axis_1).val = -32768
      ∧ ((loop_body (counts_of (-1) 0 0) (inputs_of 32767 0 0 1 0 0)).velocity.get
        Axis.axis_1).val ≠ 32767 - (-1)
      ∧ (loop_body (counts_of (-1) 0 0) (inputs_of 32767 0 0 1 0 0)).dir.level Axis.axis_1
        = 0 := by
  have h := velocity_is_wrapped_difference (counts_of (-1) 0 0) (inputs_of 32767 0 0 1 0 0)
    Axis.axis_1
  refine ⟨(h.2.2.1 (-32768) (by decide) (by decide) (by decide)).symm, ?_,
    h.2.2.2.2.1.trans (by decide)⟩
  intro hne
  exact absurd (h.2.2.2.1.mp hne).2 (by decide)

end Pendant
